import Mathlib

/-!
Shallow embedding of the gotest ledger (two Go variants) and proofs about it.

The repository holds two variants of the same small ledger over a DynamoDB
key-value store:

* `src/sample/cmd/sample/main.go` — the two-delta form.  Its `UpdateBalance`
  takes independent `availableChange` / `totalChange`, rejects updates that
  would drive either field negative, and issues a conditional write
  (`available = :currentAvailable AND total = :currentTotal`), retrying
  forever on `ConditionalCheckFailedException`.
* `src/cmd/main.go` — the single-delta form.  Its `UpdateBalance` takes one
  `amount` added to both fields, performs no negativity check, and issues an
  unconditional write.

The embedding models the store as two finite maps (`balances`, `orders`)
and monetary values as exact rationals (`Rat`), matching the spec's "signed
decimal" data model.  Store-level faults (network errors, decode failures)
are not modelled; the only failures are the logical ones the code itself
produces.  Concurrency is modelled by an explicit interference schedule: a
list of balance records written by concurrent writers, one landing between
the read and the write of each successive retry round; an exhausted schedule
means no further interference.  `GetItem` performs no store write, so the
read operation (`FetchBalance`) is a pure function of the store.
-/

/-- Balance record of the Balances table (`Balance` struct in both Go files):
key `user_id`, numeric attributes `available` and `total`. -/
structure Balance where
  UserID : String
  Available : Rat
  Total : Rat
deriving DecidableEq, Repr

/-- Order record of the Orders table (`Order` struct in both Go files):
key `order_id`, attributes `user_id`, `amount`, `status`. -/
structure Order where
  OrderID : String
  UserID : String
  Amount : Rat
  Status : String
deriving DecidableEq, Repr

/-- Error kinds observable from the ledger operations, following the spec's
error taxonomy (§7).  In the Go code these are distinct `fmt.Errorf` values;
`ConditionConflict` is the store's `ConditionalCheckFailedException`. -/
inductive Err where
  | NotFound
  | InvalidAmount
  | NegativeBalance
  | AlreadySettled
  | ConditionConflict
  | StoreError
deriving DecidableEq, Repr

/-- The external key-value store: the Balances table keyed by `user_id` and
the Orders table keyed by `order_id`. -/
structure Store where
  balances : String → Option Balance
  orders : String → Option Order

/-- Write (upsert) a balance record under key `u`, as DynamoDB `UpdateItem`
on the Balances table does.  The key attribute always equals the key. -/
def Store.setBalance (s : Store) (u : String) (b : Balance) : Store :=
  { s with balances := fun k => if k = u then some b else s.balances k }

/-- Write (upsert) an order record under key `o` (DynamoDB `PutItem` /
`UpdateItem` on the Orders table). -/
def Store.setOrder (s : Store) (o : String) (ord : Order) : Store :=
  { s with orders := fun k => if k = o then some ord else s.orders k }

/-- Function `FetchBalance` (identical in both Go files): point read of the Balances
table by `user_id`; `NotFound` when no record exists.  `GetItem` performs no
write, so the store is unchanged and not returned. -/
def FetchBalance (s : Store) (userID : String) : Except Err Balance :=
  match s.balances userID with
  | none => .error .NotFound
  | some b => .ok b

namespace Sample

/-- Function `UpdateBalance` of `src/sample/cmd/sample/main.go` (two-delta form).
Loop body: read via `FetchBalance` (propagating its failure), compute the
new values, fail `NegativeBalance` when either would be negative, then issue
the conditional write `available = :currentAvailable AND total =
:currentTotal`.  `sched` lists the concurrent writes landing between this
round's read and its conditional write; when it is empty no interference
occurs and the condition trivially holds.  A failed condition
(`isConditionalCheckFailed`) restarts the loop on the remaining schedule. -/
def UpdateBalance (sched : List Balance) (s : Store) (userID : String)
    (availableChange totalChange : Rat) : Except Err Unit × Store :=
  match FetchBalance s userID with
  | .error e => (.error e, s)
  | .ok balance =>
    let newAvailable := balance.Available + availableChange
    let newTotal := balance.Total + totalChange
    if newAvailable < 0 ∨ newTotal < 0 then
      (.error .NegativeBalance, s)
    else
      match sched with
      | [] =>
        (.ok (), Store.setBalance s userID ⟨userID, newAvailable, newTotal⟩)
      | w :: rest =>
        let s1 := Store.setBalance s userID w
        if w.Available = balance.Available ∧ w.Total = balance.Total then
          (.ok (), Store.setBalance s1 userID ⟨userID, newAvailable, newTotal⟩)
        else
          UpdateBalance rest s1 userID availableChange totalChange

/-- Function `CreateSellOrder` of `src/sample/cmd/sample/main.go`: reject
`amount <= 0`, put the Pending order unconditionally, then
`UpdateBalance(svc, userID, -amount, -amount)`. -/
def CreateSellOrder (sched : List Balance) (s : Store) (userID orderID : String)
    (amount : Rat) : Except Err Unit × Store :=
  if amount ≤ 0 then
    (.error .InvalidAmount, s)
  else
    let s1 := Store.setOrder s orderID ⟨orderID, userID, amount, "Pending"⟩
    UpdateBalance sched s1 userID (-amount) (-amount)

/-- Function `Settle` of `src/sample/cmd/sample/main.go`: read the order (`NotFound`
when absent), reject when already `Settled`, otherwise write
`status = Settled` (only the status attribute).  This variant performs no
balance adjustment. -/
def Settle (s : Store) (orderID : String) : Except Err Unit × Store :=
  match s.orders orderID with
  | none => (.error .NotFound, s)
  | some order =>
    if order.Status = "Settled" then
      (.error .AlreadySettled, s)
    else
      (.ok (), Store.setOrder s orderID { order with Status := "Settled" })

end Sample

namespace Cmd

/-- Function `UpdateBalance` of `src/cmd/main.go` (single-delta form).  The loop body
reads via `FetchBalance`, adds `amount` to both fields and writes them with
no `ConditionExpression` and no negativity check; the write therefore
applies unconditionally and the loop always returns in its first round.
`sched`'s head, when present, is the concurrent write landing between the
read and the write of that single round; the unconditional write then
overwrites it. -/
def UpdateBalance (sched : List Balance) (s : Store) (userID : String)
    (amount : Rat) : Except Err Unit × Store :=
  match FetchBalance s userID with
  | .error e => (.error e, s)
  | .ok balance =>
    let newAvailable := balance.Available + amount
    let newTotal := balance.Total + amount
    let s1 := match sched with
      | [] => s
      | w :: _ => Store.setBalance s userID w
    (.ok (), Store.setBalance s1 userID ⟨userID, newAvailable, newTotal⟩)

/-- Function `CreateSellOrder` of `src/cmd/main.go`: reject `amount <= 0`, put the
Pending order unconditionally, then `UpdateBalance(svc, userID, -amount)`. -/
def CreateSellOrder (sched : List Balance) (s : Store) (userID orderID : String)
    (amount : Rat) : Except Err Unit × Store :=
  if amount ≤ 0 then
    (.error .InvalidAmount, s)
  else
    let s1 := Store.setOrder s orderID ⟨orderID, userID, amount, "Pending"⟩
    UpdateBalance sched s1 userID (-amount)

/-- Function `Settle` of `src/cmd/main.go`: read the order (`NotFound` when absent),
reject when already `Settled`, write `status = Settled`, then additionally
call `UpdateBalance(svc, userID, -order.Amount)` — the single-delta form,
which debits both fields. -/
def Settle (sched : List Balance) (s : Store) (userID orderID : String) :
    Except Err Unit × Store :=
  match s.orders orderID with
  | none => (.error .NotFound, s)
  | some order =>
    if order.Status = "Settled" then
      (.error .AlreadySettled, s)
    else
      let s1 := Store.setOrder s orderID { order with Status := "Settled" }
      UpdateBalance sched s1 userID (-order.Amount)

end Cmd

/-! Basic store lemmas -/

theorem Store.setBalance_orders (s : Store) (u : String) (b : Balance) :
    (Store.setBalance s u b).orders = s.orders := rfl

theorem Store.setOrder_balances (s : Store) (o : String) (ord : Order) :
    (Store.setOrder s o ord).balances = s.balances := rfl

theorem Store.setBalance_balances_self (s : Store) (u : String) (b : Balance) :
    (Store.setBalance s u b).balances u = some b := by
  simp [Store.setBalance]

theorem Store.setOrder_orders_self (s : Store) (o : String) (ord : Order) :
    (Store.setOrder s o ord).orders o = some ord := by
  simp [Store.setOrder]

theorem Store.setOrder_orders_other (s : Store) (o o2 : String) (ord : Order)
    (h : o ≠ o2) : (Store.setOrder s o2 ord).orders o = s.orders o := by
  simp [Store.setOrder, h]

theorem FetchBalance_some (s : Store) (u : String) (b : Balance)
    (h : s.balances u = some b) : FetchBalance s u = .ok b := by
  simp [FetchBalance, h]

theorem FetchBalance_none (s : Store) (u : String)
    (h : s.balances u = none) : FetchBalance s u = .error .NotFound := by
  simp [FetchBalance, h]

/-! Characterization of the two-delta UpdateBalance -/

theorem Sample.updateBalance_none (sched : List Balance) (s : Store) (u : String)
    (dA dT : Rat) (h : s.balances u = none) :
    Sample.UpdateBalance sched s u dA dT = (.error .NotFound, s) := by
  unfold Sample.UpdateBalance
  rw [FetchBalance_none s u h]

theorem Sample.updateBalance_neg (sched : List Balance) (s : Store) (u : String)
    (dA dT : Rat) (b : Balance) (hb : s.balances u = some b)
    (hneg : b.Available + dA < 0 ∨ b.Total + dT < 0) :
    Sample.UpdateBalance sched s u dA dT = (.error .NegativeBalance, s) := by
  unfold Sample.UpdateBalance
  rw [FetchBalance_some s u b hb]
  simp only [if_pos hneg]

theorem Sample.updateBalance_nil (s : Store) (u : String) (dA dT : Rat)
    (b : Balance) (hb : s.balances u = some b)
    (hpos : ¬(b.Available + dA < 0 ∨ b.Total + dT < 0)) :
    Sample.UpdateBalance [] s u dA dT =
      (.ok (), Store.setBalance s u ⟨u, b.Available + dA, b.Total + dT⟩) := by
  unfold Sample.UpdateBalance
  rw [FetchBalance_some s u b hb]
  simp only [if_neg hpos]

theorem Sample.updateBalance_cas_ok (w : Balance) (rest : List Balance)
    (s : Store) (u : String) (dA dT : Rat) (b : Balance)
    (hb : s.balances u = some b)
    (hpos : ¬(b.Available + dA < 0 ∨ b.Total + dT < 0))
    (hmatch : w.Available = b.Available ∧ w.Total = b.Total) :
    Sample.UpdateBalance (w :: rest) s u dA dT =
      (.ok (), Store.setBalance (Store.setBalance s u w) u
        ⟨u, b.Available + dA, b.Total + dT⟩) := by
  unfold Sample.UpdateBalance
  rw [FetchBalance_some s u b hb]
  simp only [if_neg hpos, if_pos hmatch]

theorem Sample.updateBalance_cas_conflict (w : Balance) (rest : List Balance)
    (s : Store) (u : String) (dA dT : Rat) (b : Balance)
    (hb : s.balances u = some b)
    (hpos : ¬(b.Available + dA < 0 ∨ b.Total + dT < 0))
    (hconflict : ¬(w.Available = b.Available ∧ w.Total = b.Total)) :
    Sample.UpdateBalance (w :: rest) s u dA dT =
      Sample.UpdateBalance rest (Store.setBalance s u w) u dA dT := by
  conv_lhs => rw [Sample.UpdateBalance]
  rw [FetchBalance_some s u b hb]
  simp only [if_neg hpos, if_neg hconflict]

/-! Characterization of the single-delta UpdateBalance -/

theorem Cmd.updateBalanceCmd_none (sched : List Balance) (s : Store) (u : String)
    (a : Rat) (h : s.balances u = none) :
    Cmd.UpdateBalance sched s u a = (.error .NotFound, s) := by
  unfold Cmd.UpdateBalance
  rw [FetchBalance_none s u h]

theorem Cmd.updateBalanceCmd_nil (s : Store) (u : String) (a : Rat) (b : Balance)
    (hb : s.balances u = some b) :
    Cmd.UpdateBalance [] s u a =
      (.ok (), Store.setBalance s u ⟨u, b.Available + a, b.Total + a⟩) := by
  unfold Cmd.UpdateBalance
  rw [FetchBalance_some s u b hb]

theorem Cmd.updateBalance_cons (w : Balance) (rest : List Balance) (s : Store)
    (u : String) (a : Rat) (b : Balance) (hb : s.balances u = some b) :
    Cmd.UpdateBalance (w :: rest) s u a =
      (.ok (), Store.setBalance (Store.setBalance s u w) u
        ⟨u, b.Available + a, b.Total + a⟩) := by
  unfold Cmd.UpdateBalance
  rw [FetchBalance_some s u b hb]

/-! Result classification of UpdateBalance -/

theorem Sample.updateBalance_result (sched : List Balance) :
    ∀ (s : Store) (u : String) (dA dT : Rat),
    (Sample.UpdateBalance sched s u dA dT).1 = .ok () ∨
    (Sample.UpdateBalance sched s u dA dT).1 = .error .NegativeBalance ∨
    (Sample.UpdateBalance sched s u dA dT).1 = .error .NotFound := by
  induction sched with
  | nil =>
    intro s u dA dT
    cases hb : s.balances u with
    | none =>
      rw [Sample.updateBalance_none [] s u dA dT hb]
      right; right; rfl
    | some b =>
      by_cases hneg : b.Available + dA < 0 ∨ b.Total + dT < 0
      · rw [Sample.updateBalance_neg [] s u dA dT b hb hneg]
        right; left; rfl
      · rw [Sample.updateBalance_nil s u dA dT b hb hneg]
        left; rfl
  | cons w rest ih =>
    intro s u dA dT
    cases hb : s.balances u with
    | none =>
      rw [Sample.updateBalance_none (w :: rest) s u dA dT hb]
      right; right; rfl
    | some b =>
      by_cases hneg : b.Available + dA < 0 ∨ b.Total + dT < 0
      · rw [Sample.updateBalance_neg (w :: rest) s u dA dT b hb hneg]
        right; left; rfl
      · by_cases hm : w.Available = b.Available ∧ w.Total = b.Total
        · rw [Sample.updateBalance_cas_ok w rest s u dA dT b hb hneg hm]
          left; rfl
        · rw [Sample.updateBalance_cas_conflict w rest s u dA dT b hb hneg hm]
          exact ih (Store.setBalance s u w) u dA dT

theorem Cmd.updateBalanceCmd_result (sched : List Balance) (s : Store) (u : String)
    (a : Rat) :
    (Cmd.UpdateBalance sched s u a).1 = .ok () ∨
    (Cmd.UpdateBalance sched s u a).1 = .error .NotFound := by
  cases hb : s.balances u with
  | none =>
    rw [Cmd.updateBalanceCmd_none sched s u a hb]
    right; rfl
  | some b =>
    cases sched with
    | nil =>
      rw [Cmd.updateBalanceCmd_nil s u a b hb]
      left; rfl
    | cons w rest =>
      rw [Cmd.updateBalance_cons w rest s u a b hb]
      left; rfl

/-! Lemmas showing UpdateBalance never touches the Orders table -/

theorem Sample.updateBalance_orders (sched : List Balance) :
    ∀ (s : Store) (u : String) (dA dT : Rat),
    ((Sample.UpdateBalance sched s u dA dT).2).orders = s.orders := by
  induction sched with
  | nil =>
    intro s u dA dT
    cases hb : s.balances u with
    | none => rw [Sample.updateBalance_none [] s u dA dT hb]
    | some b =>
      by_cases hneg : b.Available + dA < 0 ∨ b.Total + dT < 0
      · rw [Sample.updateBalance_neg [] s u dA dT b hb hneg]
      · rw [Sample.updateBalance_nil s u dA dT b hb hneg]
        rfl
  | cons w rest ih =>
    intro s u dA dT
    cases hb : s.balances u with
    | none => rw [Sample.updateBalance_none (w :: rest) s u dA dT hb]
    | some b =>
      by_cases hneg : b.Available + dA < 0 ∨ b.Total + dT < 0
      · rw [Sample.updateBalance_neg (w :: rest) s u dA dT b hb hneg]
      · by_cases hm : w.Available = b.Available ∧ w.Total = b.Total
        · rw [Sample.updateBalance_cas_ok w rest s u dA dT b hb hneg hm]
          rfl
        · rw [Sample.updateBalance_cas_conflict w rest s u dA dT b hb hneg hm]
          exact ih (Store.setBalance s u w) u dA dT

theorem Cmd.updateBalanceCmd_orders (sched : List Balance) (s : Store) (u : String)
    (a : Rat) : ((Cmd.UpdateBalance sched s u a).2).orders = s.orders := by
  cases hb : s.balances u with
  | none => rw [Cmd.updateBalanceCmd_none sched s u a hb]
  | some b =>
    cases sched with
    | nil =>
      rw [Cmd.updateBalanceCmd_nil s u a b hb]
      rfl
    | cons w rest =>
      rw [Cmd.updateBalance_cons w rest s u a b hb]
      rfl

/-- In the single-delta form the final balance of the touched user is always
the value computed from the record read at the start of the (single) round,
with the same `amount` added to both fields. -/
theorem Cmd.updateBalance_final_balance (sched : List Balance) (s : Store)
    (u : String) (a : Rat) (b : Balance) (hb : s.balances u = some b) :
    ((Cmd.UpdateBalance sched s u a).2).balances u =
      some ⟨u, b.Available + a, b.Total + a⟩ := by
  cases sched with
  | nil =>
    rw [Cmd.updateBalanceCmd_nil s u a b hb]
    exact Store.setBalance_balances_self _ u _
  | cons w rest =>
    rw [Cmd.updateBalance_cons w rest s u a b hb]
    exact Store.setBalance_balances_self _ u _

/-! Characterization of CreateSellOrder and Settle -/

theorem Sample.createSellOrder_nonpos (sched : List Balance) (s : Store)
    (u o : String) (a : Rat) (h : a ≤ 0) :
    Sample.CreateSellOrder sched s u o a = (.error .InvalidAmount, s) := by
  simp [Sample.CreateSellOrder, h]

theorem Sample.createSellOrder_pos (sched : List Balance) (s : Store)
    (u o : String) (a : Rat) (h : ¬ a ≤ 0) :
    Sample.CreateSellOrder sched s u o a =
      Sample.UpdateBalance sched
        (Store.setOrder s o ⟨o, u, a, "Pending"⟩) u (-a) (-a) := by
  simp [Sample.CreateSellOrder, h]

theorem Cmd.createSellOrderCmd_nonpos (sched : List Balance) (s : Store)
    (u o : String) (a : Rat) (h : a ≤ 0) :
    Cmd.CreateSellOrder sched s u o a = (.error .InvalidAmount, s) := by
  simp [Cmd.CreateSellOrder, h]

theorem Cmd.createSellOrderCmd_pos (sched : List Balance) (s : Store)
    (u o : String) (a : Rat) (h : ¬ a ≤ 0) :
    Cmd.CreateSellOrder sched s u o a =
      Cmd.UpdateBalance sched
        (Store.setOrder s o ⟨o, u, a, "Pending"⟩) u (-a) := by
  simp [Cmd.CreateSellOrder, h]

theorem Sample.settle_none (s : Store) (o : String) (h : s.orders o = none) :
    Sample.Settle s o = (.error .NotFound, s) := by
  simp [Sample.Settle, h]

theorem Sample.settle_settled (s : Store) (o : String) (ord : Order)
    (h : s.orders o = some ord) (hs : ord.Status = "Settled") :
    Sample.Settle s o = (.error .AlreadySettled, s) := by
  simp [Sample.Settle, h, hs]

theorem Sample.settle_pending (s : Store) (o : String) (ord : Order)
    (h : s.orders o = some ord) (hs : ¬ ord.Status = "Settled") :
    Sample.Settle s o =
      (.ok (), Store.setOrder s o { ord with Status := "Settled" }) := by
  simp [Sample.Settle, h, hs]

theorem Cmd.settleCmd_none (sched : List Balance) (s : Store) (u o : String)
    (h : s.orders o = none) :
    Cmd.Settle sched s u o = (.error .NotFound, s) := by
  simp [Cmd.Settle, h]

theorem Cmd.settleCmd_settled (sched : List Balance) (s : Store) (u o : String)
    (ord : Order) (h : s.orders o = some ord) (hs : ord.Status = "Settled") :
    Cmd.Settle sched s u o = (.error .AlreadySettled, s) := by
  simp [Cmd.Settle, h, hs]

theorem Cmd.settleCmd_pending (sched : List Balance) (s : Store) (u o : String)
    (ord : Order) (h : s.orders o = some ord) (hs : ¬ ord.Status = "Settled") :
    Cmd.Settle sched s u o =
      Cmd.UpdateBalance sched
        (Store.setOrder s o { ord with Status := "Settled" }) u (-ord.Amount) := by
  simp [Cmd.Settle, h, hs]

/-! Concrete stores used by witnesses and counterexamples -/

/-- Store with no records at all. -/
def storeEmpty : Store := ⟨fun _ => none, fun _ => none⟩

/-- Store holding only Balance{u1, available 10, total 10}. -/
def store10 : Store :=
  ⟨fun k => if k = "u1" then some ⟨"u1", 10, 10⟩ else none, fun _ => none⟩

/-- Store holding only Balance{u1, available 30, total 30}. -/
def store30 : Store :=
  ⟨fun k => if k = "u1" then some ⟨"u1", 30, 30⟩ else none, fun _ => none⟩

/-- Store holding only Balance{u1, available 100, total 100} (Scenario A). -/
def store100 : Store :=
  ⟨fun k => if k = "u1" then some ⟨"u1", 100, 100⟩ else none, fun _ => none⟩

/-- Store of Scenario B: Balance{u1, 60, 60} and pending Order{o1, u1, 40}. -/
def storeSettle : Store :=
  ⟨fun k => if k = "u1" then some ⟨"u1", 60, 60⟩ else none,
   fun k => if k = "o1" then some ⟨"o1", "u1", 40, "Pending"⟩ else none⟩

/-! Claim C1 -/

/-- Claim C1 is false for the single-delta form: in `src/cmd/main.go` an
adjustment whose computed values are negative does not fail with
`NegativeBalance` and does write the store.  From Balance{u1, 10, 10},
`UpdateBalance(u1, -20)` succeeds and stores Balance{u1, -10, -10}. -/
theorem C1_counterexample :
    (Cmd.UpdateBalance [] store10 "u1" (-20)).1 = .ok () ∧
    ((Cmd.UpdateBalance [] store10 "u1" (-20)).2).balances "u1" =
      some ⟨"u1", -10, -10⟩ := by
  rw [Cmd.updateBalanceCmd_nil store10 "u1" (-20) ⟨"u1", 10, 10⟩ rfl]
  refine ⟨rfl, ?_⟩
  rw [Store.setBalance_balances_self]
  norm_num

/-- Claim C1 (amended): the negative-balance guard belongs to the two-delta
form only.  There, whenever the values computed from the stored Balance
would make available or total negative, the call fails with
`NegativeBalance` and leaves the store untouched, whatever interference
would have followed; the single-delta form performs no such check and never
returns `NegativeBalance`. -/
theorem C1_negative_rejected :
    (∀ (sched : List Balance) (s : Store) (u : String) (dA dT : Rat)
        (b : Balance),
      s.balances u = some b →
      (b.Available + dA < 0 ∨ b.Total + dT < 0) →
      Sample.UpdateBalance sched s u dA dT = (.error .NegativeBalance, s)) ∧
    (∀ (sched : List Balance) (s : Store) (u : String) (a : Rat),
      (Cmd.UpdateBalance sched s u a).1 ≠ .error .NegativeBalance) := by
  constructor
  · exact fun sched s u dA dT b hb hneg =>
      Sample.updateBalance_neg sched s u dA dT b hb hneg
  · intro sched s u a h
    rcases Cmd.updateBalanceCmd_result sched s u a with h1 | h1 <;>
      rw [h1] at h <;> simp at h

/-- Witness for `C1_negative_rejected` at Balance{u1, 10, 10}, delta -20. -/
theorem C1_witness :
    Sample.UpdateBalance [] store10 "u1" (-20) (-20) =
      (.error .NegativeBalance, store10) ∧
    (Cmd.UpdateBalance [] store10 "u1" (-20)).1 ≠ .error .NegativeBalance :=
  ⟨C1_negative_rejected.1 [] store10 "u1" (-20) (-20) ⟨"u1", 10, 10⟩
      (by decide) (by norm_num),
   C1_negative_rejected.2 [] store10 "u1" (-20)⟩

/-! Claim C2 -/

/-- Claim C2 is false for the single-delta form: its write is not
conditional.  From Balance{u1, 100, 100}, with a concurrent writer storing
Balance{u1, 5, 5} between the read and the write, the stored fields (5, 5)
no longer equal the values read (100, 100), yet the write still applies and
stores Balance{u1, 90, 90} computed from the stale read. -/
theorem C2_counterexample :
    (Cmd.UpdateBalance [⟨"u1", 5, 5⟩] store100 "u1" (-10)).1 = .ok () ∧
    ((Cmd.UpdateBalance [⟨"u1", 5, 5⟩] store100 "u1" (-10)).2).balances "u1" =
      some ⟨"u1", 90, 90⟩ ∧
    ((5 : Rat) = 100 ∧ (5 : Rat) = 100 → False) := by
  rw [Cmd.updateBalance_cons ⟨"u1", 5, 5⟩ [] store100 "u1" (-10)
    ⟨"u1", 100, 100⟩ rfl]
  refine ⟨rfl, ?_, by norm_num⟩
  rw [Store.setBalance_balances_self]
  norm_num

/-- Claim C2 (amended): the conditional write belongs to the two-delta form
only.  There the write sets both fields to the newly computed values and
applies exactly when the stored available and the stored total both still
equal the values read in the same round (otherwise the round retries
without writing); in the single-delta form the write sets both fields but
applies unconditionally, whatever the stored values are. -/
theorem C2_conditional_write :
    (∀ (w : Balance) (rest : List Balance) (s : Store) (u : String)
        (dA dT : Rat) (b : Balance),
      s.balances u = some b →
      ¬(b.Available + dA < 0 ∨ b.Total + dT < 0) →
      ((w.Available = b.Available ∧ w.Total = b.Total →
          Sample.UpdateBalance (w :: rest) s u dA dT =
            (.ok (), Store.setBalance (Store.setBalance s u w) u
              ⟨u, b.Available + dA, b.Total + dT⟩)) ∧
        (¬(w.Available = b.Available ∧ w.Total = b.Total) →
          Sample.UpdateBalance (w :: rest) s u dA dT =
            Sample.UpdateBalance rest (Store.setBalance s u w) u dA dT))) ∧
    (∀ (w : Balance) (rest : List Balance) (s : Store) (u : String) (a : Rat)
        (b : Balance),
      s.balances u = some b →
      Cmd.UpdateBalance (w :: rest) s u a =
        (.ok (), Store.setBalance (Store.setBalance s u w) u
          ⟨u, b.Available + a, b.Total + a⟩)) :=
  ⟨fun w rest s u dA dT b hb hpos =>
    ⟨fun hm => Sample.updateBalance_cas_ok w rest s u dA dT b hb hpos hm,
     fun hm => Sample.updateBalance_cas_conflict w rest s u dA dT b hb hpos hm⟩,
   fun w rest s u a b hb => Cmd.updateBalance_cons w rest s u a b hb⟩

/-- Witness for `C2_conditional_write`: a conflicting concurrent write makes
the two-delta round retry, while the single-delta form overwrites it. -/
theorem C2_witness :
    (Sample.UpdateBalance [⟨"u1", 5, 5⟩] store100 "u1" (-10) (-10) =
      Sample.UpdateBalance []
        (Store.setBalance store100 "u1" ⟨"u1", 5, 5⟩) "u1" (-10) (-10)) ∧
    (Cmd.UpdateBalance [⟨"u1", 5, 5⟩] store100 "u1" (-10) =
      (.ok (), Store.setBalance
        (Store.setBalance store100 "u1" ⟨"u1", 5, 5⟩) "u1"
        ⟨"u1", 100 + -10, 100 + -10⟩)) :=
  ⟨(C2_conditional_write.1 ⟨"u1", 5, 5⟩ [] store100 "u1" (-10) (-10)
      ⟨"u1", 100, 100⟩ (by decide) (by norm_num)).2 (by norm_num),
   C2_conditional_write.2 ⟨"u1", 5, 5⟩ [] store100 "u1" (-10)
      ⟨"u1", 100, 100⟩ (by decide)⟩

/-! Claim C3 -/

/-- Claim C3 is false as stated: a `NotFound` failure propagated from the
read step is a fourth observable outcome of `UpdateBalance`, beside the
claimed success, `NegativeBalance` and non-conflict `StoreError`.  On an
empty store the two-delta `UpdateBalance` returns `NotFound`, which is a
distinct error kind from all of those. -/
theorem C3_counterexample :
    (Sample.UpdateBalance [] storeEmpty "u1" 1 1).1 = .error .NotFound ∧
    Err.NotFound ≠ Err.NegativeBalance ∧
    Err.NotFound ≠ Err.StoreError ∧
    Err.NotFound ≠ Err.ConditionConflict := by
  exact ⟨rfl, by decide, by decide, by decide⟩

/-- Claim C3 (amended): a failed condition restarts the two-delta
`UpdateBalance` from the read step on the updated store, whatever
interference remains (the code imposes no retry bound), so a condition
conflict is never returned to the caller: under any finite interference the
two-delta form returns success, `NegativeBalance`, or the `NotFound`
propagated from its read, and the single-delta form, whose write carries no
condition at all, returns success or `NotFound`. -/
theorem C3_conflict_absorbed :
    (∀ (w : Balance) (rest : List Balance) (s : Store) (u : String)
        (dA dT : Rat) (b : Balance),
      s.balances u = some b →
      ¬(b.Available + dA < 0 ∨ b.Total + dT < 0) →
      ¬(w.Available = b.Available ∧ w.Total = b.Total) →
      Sample.UpdateBalance (w :: rest) s u dA dT =
        Sample.UpdateBalance rest (Store.setBalance s u w) u dA dT) ∧
    (∀ (sched : List Balance) (s : Store) (u : String) (dA dT : Rat),
      (Sample.UpdateBalance sched s u dA dT).1 = .ok () ∨
      (Sample.UpdateBalance sched s u dA dT).1 = .error .NegativeBalance ∨
      (Sample.UpdateBalance sched s u dA dT).1 = .error .NotFound) ∧
    (∀ (sched : List Balance) (s : Store) (u : String) (a : Rat),
      (Cmd.UpdateBalance sched s u a).1 = .ok () ∨
      (Cmd.UpdateBalance sched s u a).1 = .error .NotFound) :=
  ⟨fun w rest s u dA dT b hb hpos hc =>
     Sample.updateBalance_cas_conflict w rest s u dA dT b hb hpos hc,
   fun sched s u dA dT => Sample.updateBalance_result sched s u dA dT,
   fun sched s u a => Cmd.updateBalanceCmd_result sched s u a⟩

/-- Witness for `C3_conflict_absorbed`: a concrete conflicting round
restarts from the read step. -/
theorem C3_witness :
    Sample.UpdateBalance [⟨"u1", 7, 7⟩] store100 "u1" 1 1 =
      Sample.UpdateBalance []
        (Store.setBalance store100 "u1" ⟨"u1", 7, 7⟩) "u1" 1 1 :=
  C3_conflict_absorbed.1 ⟨"u1", 7, 7⟩ [] store100 "u1" 1 1 ⟨"u1", 100, 100⟩
    (by decide) (by norm_num) (by norm_num)

/-! Claim C4 -/

/-- Claim C4: without interference, `CreateSellOrder(u, o, a)` starting from
a stored Balance{A, T} with `0 < a`, `a ≤ A` and `a ≤ T` succeeds, creates
Order{o, u, a, Pending}, and decreases both balance fields by exactly `a`,
in both variants. -/
theorem C4_create_sell_order :
    ∀ (s : Store) (u o : String) (a A T : Rat),
      s.balances u = some ⟨u, A, T⟩ → 0 < a → a ≤ A → a ≤ T →
      ((Sample.CreateSellOrder [] s u o a).1 = .ok () ∧
       ((Sample.CreateSellOrder [] s u o a).2).orders o =
         some ⟨o, u, a, "Pending"⟩ ∧
       ((Sample.CreateSellOrder [] s u o a).2).balances u =
         some ⟨u, A - a, T - a⟩) ∧
      ((Cmd.CreateSellOrder [] s u o a).1 = .ok () ∧
       ((Cmd.CreateSellOrder [] s u o a).2).orders o =
         some ⟨o, u, a, "Pending"⟩ ∧
       ((Cmd.CreateSellOrder [] s u o a).2).balances u =
         some ⟨u, A - a, T - a⟩) := by
  intro s u o a A T hb ha haA haT
  have hnot : ¬ a ≤ 0 := not_le.mpr ha
  have hb1 : (Store.setOrder s o ⟨o, u, a, "Pending"⟩).balances u =
      some ⟨u, A, T⟩ := hb
  constructor
  · have hpos : ¬((⟨u, A, T⟩ : Balance).Available + -a < 0 ∨
        (⟨u, A, T⟩ : Balance).Total + -a < 0) := by
      push_neg
      constructor <;> simp <;> linarith
    rw [Sample.createSellOrder_pos [] s u o a hnot,
      Sample.updateBalance_nil _ u (-a) (-a) ⟨u, A, T⟩ hb1 hpos]
    refine ⟨rfl, ?_, ?_⟩
    · show (Store.setBalance _ u _).orders o = _
      rw [Store.setBalance_orders, Store.setOrder_orders_self]
    · rw [Store.setBalance_balances_self]
      simp [sub_eq_add_neg]
  · rw [Cmd.createSellOrderCmd_pos [] s u o a hnot,
      Cmd.updateBalanceCmd_nil _ u (-a) ⟨u, A, T⟩ hb1]
    refine ⟨rfl, ?_, ?_⟩
    · show (Store.setBalance _ u _).orders o = _
      rw [Store.setBalance_orders, Store.setOrder_orders_self]
    · rw [Store.setBalance_balances_self]
      simp [sub_eq_add_neg]

/-- Witness for `C4_create_sell_order`: Scenario A, from Balance{u1,100,100}
the order o1 of amount 40 is created Pending and the balance drops to
{60, 60} in both variants. -/
theorem C4_witness :
    ((Sample.CreateSellOrder [] store100 "u1" "o1" 40).1 = .ok () ∧
     ((Sample.CreateSellOrder [] store100 "u1" "o1" 40).2).orders "o1" =
       some ⟨"o1", "u1", 40, "Pending"⟩ ∧
     ((Sample.CreateSellOrder [] store100 "u1" "o1" 40).2).balances "u1" =
       some ⟨"u1", 100 - 40, 100 - 40⟩) ∧
    ((Cmd.CreateSellOrder [] store100 "u1" "o1" 40).1 = .ok () ∧
     ((Cmd.CreateSellOrder [] store100 "u1" "o1" 40).2).orders "o1" =
       some ⟨"o1", "u1", 40, "Pending"⟩ ∧
     ((Cmd.CreateSellOrder [] store100 "u1" "o1" 40).2).balances "u1" =
       some ⟨"u1", 100 - 40, 100 - 40⟩) :=
  C4_create_sell_order store100 "u1" "o1" 40 100 100 (by decide)
    (by norm_num) (by norm_num) (by norm_num)

/-! Claim C5 -/

/-- Claim C5: settling the same Pending order twice in sequence: the first
call succeeds and rewrites the stored status from Pending to Settled; the
second call fails with `AlreadySettled` and leaves the whole store — order
record and balances alike — exactly as it was.  In the `src/cmd/main.go`
variant the caller's balance must exist for the first call to succeed. -/
theorem C5_settle_twice :
    ∀ (s : Store) (o : String) (ord : Order),
      s.orders o = some ord → ord.Status = "Pending" →
      ((Sample.Settle s o).1 = .ok () ∧
       ((Sample.Settle s o).2).orders o =
         some { ord with Status := "Settled" } ∧
       Sample.Settle (Sample.Settle s o).2 o =
         (.error .AlreadySettled, (Sample.Settle s o).2)) ∧
      (∀ (u : String) (b : Balance), s.balances u = some b →
        (Cmd.Settle [] s u o).1 = .ok () ∧
        ((Cmd.Settle [] s u o).2).orders o =
          some { ord with Status := "Settled" } ∧
        Cmd.Settle [] (Cmd.Settle [] s u o).2 u o =
          (.error .AlreadySettled, (Cmd.Settle [] s u o).2)) := by
  intro s o ord ho hp
  have hnot : ¬ ord.Status = "Settled" := by rw [hp]; decide
  constructor
  · rw [Sample.settle_pending s o ord ho hnot]
    refine ⟨rfl, Store.setOrder_orders_self s o _, ?_⟩
    exact Sample.settle_settled _ o { ord with Status := "Settled" }
      (Store.setOrder_orders_self s o _) rfl
  · intro u b hbu
    have hbu1 : (Store.setOrder s o { ord with Status := "Settled" }).balances u =
        some b := hbu
    rw [Cmd.settleCmd_pending [] s u o ord ho hnot,
      Cmd.updateBalanceCmd_nil _ u (-ord.Amount) b hbu1]
    refine ⟨rfl, ?_, ?_⟩
    · show (Store.setBalance _ u _).orders o = _
      rw [Store.setBalance_orders, Store.setOrder_orders_self]
    · have ho2 : ((Store.setBalance
          (Store.setOrder s o { ord with Status := "Settled" }) u
          ⟨u, b.Available + -ord.Amount, b.Total + -ord.Amount⟩)).orders o =
          some { ord with Status := "Settled" } := by
        rw [Store.setBalance_orders, Store.setOrder_orders_self]
      exact Cmd.settleCmd_settled [] _ u o { ord with Status := "Settled" } ho2 rfl

/-- Witness for `C5_settle_twice` on Scenario B's store. -/
theorem C5_witness :
    (Sample.Settle storeSettle "o1").1 = .ok () ∧
    Sample.Settle (Sample.Settle storeSettle "o1").2 "o1" =
      (.error .AlreadySettled, (Sample.Settle storeSettle "o1").2) ∧
    (Cmd.Settle [] storeSettle "u1" "o1").1 = .ok () ∧
    Cmd.Settle [] (Cmd.Settle [] storeSettle "u1" "o1").2 "u1" "o1" =
      (.error .AlreadySettled, (Cmd.Settle [] storeSettle "u1" "o1").2) := by
  have h := C5_settle_twice storeSettle "o1" ⟨"o1", "u1", 40, "Pending"⟩
    (by decide) (by decide)
  have h2 := h.2 "u1" ⟨"u1", 60, 60⟩ (by decide)
  exact ⟨h.1.1, h.1.2.2, h2.1, h2.2.2⟩

/-! Claim C6 -/

/-- Claim C6 is false on the code: `Settle` in `src/cmd/main.go` calls the
single-delta `UpdateBalance(userID, -order.Amount)`, which debits available
as well.  Settling pending Order{o1, u1, 40} from Balance{u1, 60, 60}
leaves Balance{u1, 20, 20}, not the claimed {available 60, total 20}. -/
theorem C6_counterexample :
    ((Cmd.Settle [] storeSettle "u1" "o1").2).balances "u1" =
      some ⟨"u1", 20, 20⟩ ∧
    ((Cmd.Settle [] storeSettle "u1" "o1").2).balances "u1" ≠
      some ⟨"u1", 60, 20⟩ := by
  have h : ((Cmd.Settle [] storeSettle "u1" "o1").2).balances "u1" =
      some ⟨"u1", 60 + -40, 60 + -40⟩ := by
    rw [Cmd.settleCmd_pending [] storeSettle "u1" "o1"
      ⟨"o1", "u1", 40, "Pending"⟩ (by decide) (by decide)]
    exact Cmd.updateBalance_final_balance [] _ "u1" _ ⟨"u1", 60, 60⟩ (by decide)
  rw [h]
  constructor <;> norm_num

/-- Claim C6 (amended): a successful `Settle` of a Pending order in
`src/cmd/main.go` debits BOTH stored balance fields by the order amount
(the balance call is `UpdateBalance(userID, -order.Amount)`, the
single-delta form): afterwards available and total each equal their
pre-settle value minus the amount. -/
theorem C6_settle_debits_both :
    ∀ (s : Store) (u o : String) (ord : Order) (b : Balance),
      s.orders o = some ord → ord.Status = "Pending" →
      s.balances u = some b →
      (Cmd.Settle [] s u o).1 = .ok () ∧
      ((Cmd.Settle [] s u o).2).balances u =
        some ⟨u, b.Available - ord.Amount, b.Total - ord.Amount⟩ := by
  intro s u o ord b ho hp hbu
  have hnot : ¬ ord.Status = "Settled" := by rw [hp]; decide
  have hbu1 : (Store.setOrder s o { ord with Status := "Settled" }).balances u =
      some b := hbu
  rw [Cmd.settleCmd_pending [] s u o ord ho hnot,
    Cmd.updateBalanceCmd_nil _ u (-ord.Amount) b hbu1]
  refine ⟨rfl, ?_⟩
  rw [Store.setBalance_balances_self]
  simp [sub_eq_add_neg]

/-- Witness for `C6_settle_debits_both` on Scenario B's store. -/
theorem C6_witness :
    (Cmd.Settle [] storeSettle "u1" "o1").1 = .ok () ∧
    ((Cmd.Settle [] storeSettle "u1" "o1").2).balances "u1" =
      some ⟨"u1", 60 - 40, 60 - 40⟩ :=
  C6_settle_debits_both storeSettle "u1" "o1" ⟨"o1", "u1", 40, "Pending"⟩
    ⟨"u1", 60, 60⟩ (by decide) (by decide) (by decide)

/-! Claim C7 -/

/-- Claim C7 is false on the code: the single-delta form is not observably
equivalent to the two-delta form at equal deltas.  From Balance{u1, 30, 30}
with amount -50 the two-delta form fails `NegativeBalance` and leaves the
store untouched, while the single-delta form succeeds and stores the
negative Balance{u1, -20, -20}. -/
theorem C7_counterexample :
    (Sample.UpdateBalance [] store30 "u1" (-50) (-50)).1 =
      .error .NegativeBalance ∧
    (Cmd.UpdateBalance [] store30 "u1" (-50)).1 = .ok () ∧
    ((Sample.UpdateBalance [] store30 "u1" (-50) (-50)).2).balances "u1" =
      some ⟨"u1", 30, 30⟩ ∧
    ((Cmd.UpdateBalance [] store30 "u1" (-50)).2).balances "u1" =
      some ⟨"u1", -20, -20⟩ := by
  rw [Sample.updateBalance_neg [] store30 "u1" (-50) (-50) ⟨"u1", 30, 30⟩
      (by decide) (by norm_num),
    Cmd.updateBalanceCmd_nil store30 "u1" (-50) ⟨"u1", 30, 30⟩ (by decide)]
  refine ⟨rfl, rfl, by decide, ?_⟩
  rw [Store.setBalance_balances_self]
  norm_num

/-- Claim C7 (amended): without interference the single-delta form agrees
with the two-delta form invoked with `availableDelta = totalDelta = amount`
exactly on the inputs the two-delta guard lets through: when the record is
absent (both fail `NotFound`), and when it is present with both computed
values nonnegative (same success and same final store).  The forms diverge
when a computed value is negative or a concurrent write intervenes. -/
theorem C7_single_delta_refines :
    ∀ (s : Store) (u : String) (a : Rat),
      (s.balances u = none →
        Cmd.UpdateBalance [] s u a = Sample.UpdateBalance [] s u a a) ∧
      (∀ b : Balance, s.balances u = some b →
        0 ≤ b.Available + a → 0 ≤ b.Total + a →
        Cmd.UpdateBalance [] s u a = Sample.UpdateBalance [] s u a a) := by
  intro s u a
  constructor
  · intro h
    rw [Cmd.updateBalanceCmd_none [] s u a h,
      Sample.updateBalance_none [] s u a a h]
  · intro b hb h1 h2
    have hpos : ¬(b.Available + a < 0 ∨ b.Total + a < 0) := by
      push_neg
      exact ⟨h1, h2⟩
    rw [Cmd.updateBalanceCmd_nil s u a b hb,
      Sample.updateBalance_nil s u a a b hb hpos]

/-- Witness for `C7_single_delta_refines` at Balance{u1, 100, 100} and
amount -30. -/
theorem C7_witness :
    Cmd.UpdateBalance [] store100 "u1" (-30) =
      Sample.UpdateBalance [] store100 "u1" (-30) (-30) :=
  (C7_single_delta_refines store100 "u1" (-30)).2 ⟨"u1", 100, 100⟩
    (by decide) (by norm_num) (by norm_num)

/-! Claim C8 -/

/-- Claim C8: `CreateSellOrder` with a zero or negative amount fails with
`InvalidAmount` before any store interaction, leaving the store exactly as
it was, in both variants and under any interference. -/
theorem C8_invalid_amount :
    ∀ (sched : List Balance) (s : Store) (u o : String) (a : Rat), a ≤ 0 →
      Sample.CreateSellOrder sched s u o a = (.error .InvalidAmount, s) ∧
      Cmd.CreateSellOrder sched s u o a = (.error .InvalidAmount, s) :=
  fun sched s u o a h =>
    ⟨Sample.createSellOrder_nonpos sched s u o a h,
     Cmd.createSellOrderCmd_nonpos sched s u o a h⟩

/-- Witness for `C8_invalid_amount` at amounts 0 and -5. -/
theorem C8_witness :
    (Sample.CreateSellOrder [] store100 "u1" "o1" 0 =
        (.error .InvalidAmount, store100) ∧
      Cmd.CreateSellOrder [] store100 "u1" "o1" 0 =
        (.error .InvalidAmount, store100)) ∧
    (Sample.CreateSellOrder [] store100 "u1" "o1" (-5) =
        (.error .InvalidAmount, store100) ∧
      Cmd.CreateSellOrder [] store100 "u1" "o1" (-5) =
        (.error .InvalidAmount, store100)) :=
  ⟨C8_invalid_amount [] store100 "u1" "o1" 0 (by norm_num),
   C8_invalid_amount [] store100 "u1" "o1" (-5) (by norm_num)⟩

/-! Claim C9 -/

/-- Claim C9: the stored amount of an order is never changed after creation:
balance updates leave the Orders table untouched, `CreateSellOrder` on a
different order id leaves order `o` untouched, and `Settle` in either
variant rewrites only the status field, preserving the amount of every
stored order.  (`FetchBalance` performs no store write at all: in the
embedding it does not even return a store.) -/
theorem C9_amount_immutable :
    ∀ (s : Store) (o : String),
      (∀ (sched : List Balance) (u : String) (dA dT : Rat),
        (((Sample.UpdateBalance sched s u dA dT).2).orders o).map Order.Amount =
          (s.orders o).map Order.Amount) ∧
      (∀ (sched : List Balance) (u : String) (a : Rat),
        (((Cmd.UpdateBalance sched s u a).2).orders o).map Order.Amount =
          (s.orders o).map Order.Amount) ∧
      (∀ (sched : List Balance) (u o2 : String) (a : Rat), o2 ≠ o →
        (((Sample.CreateSellOrder sched s u o2 a).2).orders o).map Order.Amount =
          (s.orders o).map Order.Amount) ∧
      (∀ (sched : List Balance) (u o2 : String) (a : Rat), o2 ≠ o →
        (((Cmd.CreateSellOrder sched s u o2 a).2).orders o).map Order.Amount =
          (s.orders o).map Order.Amount) ∧
      (∀ (o2 : String),
        (((Sample.Settle s o2).2).orders o).map Order.Amount =
          (s.orders o).map Order.Amount) ∧
      (∀ (sched : List Balance) (u o2 : String),
        (((Cmd.Settle sched s u o2).2).orders o).map Order.Amount =
          (s.orders o).map Order.Amount) := by
  intro s o
  refine ⟨?_, ?_, ?_, ?_, ?_, ?_⟩
  · intro sched u dA dT
    rw [Sample.updateBalance_orders sched s u dA dT]
  · intro sched u a
    rw [Cmd.updateBalanceCmd_orders sched s u a]
  · intro sched u o2 a hne
    by_cases ha : a ≤ 0
    · rw [Sample.createSellOrder_nonpos sched s u o2 a ha]
    · rw [Sample.createSellOrder_pos sched s u o2 a ha,
        Sample.updateBalance_orders sched _ u (-a) (-a),
        Store.setOrder_orders_other s o o2 _ (Ne.symm hne)]
  · intro sched u o2 a hne
    by_cases ha : a ≤ 0
    · rw [Cmd.createSellOrderCmd_nonpos sched s u o2 a ha]
    · rw [Cmd.createSellOrderCmd_pos sched s u o2 a ha,
        Cmd.updateBalanceCmd_orders sched _ u (-a),
        Store.setOrder_orders_other s o o2 _ (Ne.symm hne)]
  · intro o2
    cases ho2 : s.orders o2 with
    | none => rw [Sample.settle_none s o2 ho2]
    | some ord2 =>
      by_cases hs : ord2.Status = "Settled"
      · rw [Sample.settle_settled s o2 ord2 ho2 hs]
      · rw [Sample.settle_pending s o2 ord2 ho2 hs]
        by_cases heq : o = o2
        · subst heq
          rw [Store.setOrder_orders_self, ho2]
          rfl
        · rw [Store.setOrder_orders_other s o o2 _ heq]
  · intro sched u o2
    cases ho2 : s.orders o2 with
    | none => rw [Cmd.settleCmd_none sched s u o2 ho2]
    | some ord2 =>
      by_cases hs : ord2.Status = "Settled"
      · rw [Cmd.settleCmd_settled sched s u o2 ord2 ho2 hs]
      · rw [Cmd.settleCmd_pending sched s u o2 ord2 ho2 hs,
          Cmd.updateBalanceCmd_orders sched _ u (-ord2.Amount)]
        by_cases heq : o = o2
        · subst heq
          rw [Store.setOrder_orders_self, ho2]
          rfl
        · rw [Store.setOrder_orders_other s o o2 _ heq]

/-- Witness for `C9_amount_immutable`: on Scenario B's store, settling o1
and creating a different order o2 both leave o1's stored amount intact. -/
theorem C9_witness :
    (((Sample.Settle storeSettle "o1").2).orders "o1").map Order.Amount =
      (storeSettle.orders "o1").map Order.Amount ∧
    (((Sample.CreateSellOrder [] storeSettle "u1" "o2" 5).2).orders "o1").map
        Order.Amount =
      (storeSettle.orders "o1").map Order.Amount := by
  have h := C9_amount_immutable storeSettle "o1"
  exact ⟨h.2.2.2.2.1 "o1", h.2.2.1 [] "u1" "o2" 5 (by decide)⟩

/-! Claim C10 -/

/-- Claim C10: in the single-delta variant (`src/cmd/main.go`) every
successful `UpdateBalance` adds the same delta to both fields, so the
difference total - available of the stored Balance record is preserved by
every successful `UpdateBalance`, `CreateSellOrder` and `Settle` call of
that variant, under any interference. -/
theorem C10_diff_preserved :
    ∀ (s : Store) (u : String) (b : Balance), s.balances u = some b →
      (∀ (sched : List Balance) (a : Rat) (b2 : Balance),
        ((Cmd.UpdateBalance sched s u a).2).balances u = some b2 →
        b2.Total - b2.Available = b.Total - b.Available) ∧
      (∀ (sched : List Balance) (o : String) (a : Rat) (b2 : Balance),
        (Cmd.CreateSellOrder sched s u o a).1 = .ok () →
        ((Cmd.CreateSellOrder sched s u o a).2).balances u = some b2 →
        b2.Total - b2.Available = b.Total - b.Available) ∧
      (∀ (sched : List Balance) (o : String) (b2 : Balance),
        (Cmd.Settle sched s u o).1 = .ok () →
        ((Cmd.Settle sched s u o).2).balances u = some b2 →
        b2.Total - b2.Available = b.Total - b.Available) := by
  intro s u b hb
  refine ⟨?_, ?_, ?_⟩
  · intro sched a b2 h2
    rw [Cmd.updateBalance_final_balance sched s u a b hb] at h2
    have h3 : b2 = ⟨u, b.Available + a, b.Total + a⟩ :=
      (Option.some_inj.mp h2).symm
    rw [h3]
    show b.Total + a - (b.Available + a) = b.Total - b.Available
    ring
  · intro sched o a b2 hok h2
    by_cases ha : a ≤ 0
    · rw [Cmd.createSellOrderCmd_nonpos sched s u o a ha] at hok
      simp at hok
    · rw [Cmd.createSellOrderCmd_pos sched s u o a ha] at h2
      have hb1 : (Store.setOrder s o ⟨o, u, a, "Pending"⟩).balances u =
          some b := hb
      rw [Cmd.updateBalance_final_balance sched _ u (-a) b hb1] at h2
      have h3 : b2 = ⟨u, b.Available + -a, b.Total + -a⟩ :=
        (Option.some_inj.mp h2).symm
      rw [h3]
      show b.Total + -a - (b.Available + -a) = b.Total - b.Available
      ring
  · intro sched o b2 hok h2
    cases ho : s.orders o with
    | none =>
      rw [Cmd.settleCmd_none sched s u o ho] at hok
      simp at hok
    | some ord =>
      by_cases hs : ord.Status = "Settled"
      · rw [Cmd.settleCmd_settled sched s u o ord ho hs] at hok
        simp at hok
      · rw [Cmd.settleCmd_pending sched s u o ord ho hs] at h2
        have hb1 : (Store.setOrder s o
            { ord with Status := "Settled" }).balances u = some b := hb
        rw [Cmd.updateBalance_final_balance sched _ u (-ord.Amount) b hb1] at h2
        have h3 : b2 = ⟨u, b.Available + -ord.Amount, b.Total + -ord.Amount⟩ :=
          (Option.some_inj.mp h2).symm
        rw [h3]
        show b.Total + -ord.Amount - (b.Available + -ord.Amount) =
          b.Total - b.Available
        ring

/-- Witness for `C10_diff_preserved`: settling o1 on Scenario B's store
takes the balance from {60, 60} to {20, 20}, preserving the difference. -/
theorem C10_witness :
    (⟨"u1", 20, 20⟩ : Balance).Total - (⟨"u1", 20, 20⟩ : Balance).Available =
      (⟨"u1", 60, 60⟩ : Balance).Total - (⟨"u1", 60, 60⟩ : Balance).Available :=
  (C10_diff_preserved storeSettle "u1" ⟨"u1", 60, 60⟩ (by decide)).2.2 []
    "o1" ⟨"u1", 20, 20⟩ rfl
    (by
      have h : ((Cmd.Settle [] storeSettle "u1" "o1").2).balances "u1" =
          some ⟨"u1", 60 + -40, 60 + -40⟩ := by
        rw [Cmd.settleCmd_pending [] storeSettle "u1" "o1"
          ⟨"o1", "u1", 40, "Pending"⟩ (by decide) (by decide)]
        exact Cmd.updateBalance_final_balance [] _ "u1" _ ⟨"u1", 60, 60⟩
          (by decide)
      rw [h]
      norm_num)
